import Mathlib

/-!
Verification of the wave graphics module (`mhkit/wave/graphics.py`).

The module holds four plotting functions: `plot_spectrum`,
`plot_elevation_timeseries`, `plot_matrix` and `plot_chakrabarti`.
Each one is embedded as a pure Lean function producing a trace of drawing
events, together with the raised error (if any) and the Python return
value.  Machine floats are modelled as rationals and the constant `np.pi`
is threaded through as an explicit parameter `pi`, so that every
definition is executable.
-/

set_option autoImplicit false

namespace WaveGraphics

/-- A value held in a numpy array or a pandas cell: a real number
(modelled as a rational), the floating-point NaN, or a string. -/
inductive PyVal where
  | num (q : ℚ)
  | nan
  | str (s : String)
  deriving DecidableEq, Repr

/-- The Python exceptions the module can raise. -/
inductive PyErr where
  | assertionError (msg : String)
  | typeError (msg : String)
  | valueError (msg : String)
  | attributeError (msg : String)
  | keyError (msg : String)
  | nameError (msg : String)
  deriving DecidableEq, Repr

/-- Python multiplication on cell values: numbers multiply, NaN
propagates, a string operand raises `TypeError`. -/
def pyMul : PyVal → PyVal → Except PyErr PyVal
  | .num a, .num b => .ok (.num (a * b))
  | .num _, .nan => .ok .nan
  | .nan, .num _ => .ok .nan
  | .nan, .nan => .ok .nan
  | _, _ => .error (.typeError "unsupported operand type for mul")

/-- Python true division on cell values: numbers divide (rational
division), NaN propagates, a string operand raises `TypeError`. -/
def pyDiv : PyVal → PyVal → Except PyErr PyVal
  | .num a, .num b => .ok (.num (a / b))
  | .num _, .nan => .ok .nan
  | .nan, .num _ => .ok .nan
  | .nan, .nan => .ok .nan
  | _, _ => .error (.typeError "unsupported operand type for div")

/-- `np.isnan` on a cell value: `False` on a number, `True` on NaN,
`TypeError` on a string. -/
def npIsnan : PyVal → Except PyErr Bool
  | .num _ => .ok false
  | .nan => .ok true
  | .str _ => .error (.typeError "isnan not supported for input types")

/-- One drawing operation performed on a matplotlib axes object.  The
Chakrabarti boundary curves are recorded with their defining constants:
`hline level cutoff` is the dashed horizontal segment at `y = level` for
`x < cutoff`, `vline x ylo yhi` the dashed vertical segment, and
`curve c` the breaking-limit curve `y = c / x`. -/
inductive Ev where
  | createFig
  | setXScaleLog
  | setYScaleLog
  | hline (level cutoff : ℚ)
  | vline (x ylo yhi : ℚ)
  | curve (c : ℚ)
  | text (x y : ℚ) (s : String)
  | marker (x y : PyVal) (label : String)
  | legend
  | line (xs ys : List ℚ)
  | imshow (cells : List (List PyVal))
  | colorbar
  | colorbarLabel (s : String)
  | setXLabel (s : String)
  | setYLabel (s : String)
  | setXLim (lo hi : ℚ)
  | setYLim (lo hi : ℚ)
  | setXTicks (n : ℕ)
  | setYTicks (n : ℕ)
  | setXTickLabels (ls : List ℚ)
  | setYTickLabels (ls : List ℚ)
  | tightLayout
  deriving DecidableEq, Repr

/-- A pandas `DataFrame` with a numeric index and named numeric columns,
as consumed by `plot_spectrum` and `plot_elevation_timeseries`. -/
structure WaveDF where
  dfIdx : List ℚ
  cols : List (String × List ℚ)
  deriving DecidableEq, Repr

/-- An argument passed where a `DataFrame` is expected: either an actual
frame or some other object (rendered here by a tag string), which the
`isinstance` assertions reject. -/
inductive DFInput where
  | df (t : WaveDF)
  | notDf (s : String)
  deriving DecidableEq, Repr

/-- Result of a plotting call: the events drawn on the surface, the
exception raised (if any), the Python return value (`some` axes id, or
`none` for Python `None`), and the input object as left after the call. -/
structure PlotOut where
  trace : List Ev
  err : Option PyErr
  ret : Option ℕ
  final : DFInput
  deriving Repr

/-- Modelled from the spec: `_xy_plot` (from `mhkit.river.graphics`) is
imported by the module but its code is not under `src/`.  Per the spec it
draws one line per data column on the supplied surface — creating a fresh
surface when none is supplied — sets the axis labels, and returns the
surface used. -/
def xy_plot (xs : List ℚ) (ycols : List (String × List ℚ))
    (xlabel ylabel : String) (ax : Option ℕ) : List Ev × ℕ :=
  match ax with
  | none => (Ev.createFig :: (ycols.map (fun c => Ev.line xs c.2)
      ++ [Ev.setXLabel xlabel, Ev.setYLabel ylabel]), 0)
  | some a => (ycols.map (fun c => Ev.line xs c.2)
      ++ [Ev.setXLabel xlabel, Ev.setYLabel ylabel], a)

/-- `plot_spectrum(S, ax=None)`: asserts `S` is a `DataFrame`, converts
the frequency index to angular frequency (`f*2*np.pi`), rescales the
densities (`S/(2*np.pi)`), and plots via `_xy_plot`, returning its axes. -/
def plot_spectrum (pi : ℚ) (S : DFInput) (ax : Option ℕ) : PlotOut :=
  match S with
  | .notDf _ =>
      ⟨[], some (.assertionError "S must be of type pd.DataFrame"), none, S⟩
  | .df t =>
      let f := t.dfIdx
      let xs := f.map (fun q => q * 2 * pi)
      let ycols := t.cols.map (fun c => (c.1, c.2.map (fun q => q / (2 * pi))))
      let res := xy_plot xs ycols "omega [rad/s]"
        "Spectral density [m$^2$s/rad]" ax
      ⟨res.1, none, some res.2, S⟩

/-- `plot_elevation_timeseries(eta, ax=None)`: asserts `eta` is a
`DataFrame` and plots each column against the time index via `_xy_plot`,
returning its axes. -/
def plot_elevation_timeseries (eta : DFInput) (ax : Option ℕ) : PlotOut :=
  match eta with
  | .notDf _ =>
      ⟨[], some (.assertionError "eta must be of type pd.DataFrame"), none, eta⟩
  | .df t =>
      let res := xy_plot t.dfIdx t.cols "Time" "$\\eta$ [m]" ax
      ⟨res.1, none, some res.2, eta⟩

/-- The line events of a trace, in order, as `(xs, ys)` pairs. -/
def plottedLines : List Ev → List (List ℚ × List ℚ)
  | [] => []
  | .line xs ys :: rest => (xs, ys) :: plottedLines rest
  | _ :: rest => plottedLines rest

/-- A pandas `DataFrame` holding a performance matrix: numeric row and
column labels and a grid of cell values (`cells` is the list of rows, so
the value at row label `rowIdx[j]` and column label `colIdx[i]` sits at
`cells[j][i]`). -/
structure MatrixDF where
  rowIdx : List ℚ
  colIdx : List ℚ
  cells : List (List PyVal)
  deriving DecidableEq, Repr

/-- An argument passed where the matrix `DataFrame` is expected. -/
inductive MInput where
  | df (t : MatrixDF)
  | notDf (s : String)
  deriving DecidableEq, Repr

/-- Result of a `plot_matrix` call. -/
structure MatOut where
  trace : List Ev
  err : Option PyErr
  ret : Option ℕ
  final : MInput
  deriving Repr

/-- Position of the first occurrence of a label in a label list. -/
def findPos (q : ℚ) : List ℚ → Option ℕ
  | [] => none
  | a :: rest => if q = a then some 0 else (findPos q rest).map (· + 1)

/-- The cell at grid position (row `j`, column `i`). -/
def cellAt (t : MatrixDF) (j i : ℕ) : PyVal :=
  (t.cells.getD j []).getD i .nan

/-- `M.loc[rowLabel, colLabel]`: pandas label-based lookup, taking the
first occurrence of each label; a missing label raises `KeyError`. -/
def locCell (t : MatrixDF) (rowLabel colLabel : ℚ) : Except PyErr PyVal :=
  match findPos rowLabel t.rowIdx, findPos colLabel t.colIdx with
  | some j, some i => .ok (cellAt t j i)
  | _, _ => .error (.keyError "label not found")

/-- Whether every cell can be converted to a float (a string cell makes
`ax.imshow` raise `TypeError` on the object-dtype frame). -/
def cellsNumeric (cells : List (List PyVal)) : Bool :=
  cells.all (fun row => row.all (fun v => match v with
    | .str _ => false
    | _ => true))

/-- `ax.imshow(M, origin='lower', aspect='auto')`. -/
def imshowStep (t : MatrixDF) : Except PyErr Ev :=
  if cellsNumeric t.cells then .ok (Ev.imshow t.cells)
  else .error (.typeError "Image data cannot be converted to float")

/-- `format(q, '.2f')`: fixed-point rendering with two decimal places. -/
def format2f (q : ℚ) : String :=
  let n : ℤ := round (q * 100)
  let sign := if n < 0 then "-" else ""
  let m := n.natAbs
  sign ++ toString (m / 100) ++ "." ++
    (if m % 100 < 10 then "0" ++ toString (m % 100) else toString (m % 100))

/-- Body of the annotation loop for one cell: look the value up by label,
skip it when `np.isnan` holds, otherwise draw its `'.2f'` rendering at
grid position `(i, j)`. -/
def annotateCell (t : MatrixDF) (i j : ℕ) (colLabel rowLabel : ℚ) :
    Except PyErr (List Ev) := do
  let v ← locCell t rowLabel colLabel
  let b ← npIsnan v
  if b then
    .ok []
  else
    match ← locCell t rowLabel colLabel with
    | .num q => .ok [Ev.text i j (format2f q)]
    | .nan => .ok [Ev.text i j "nan"]
    | .str _ => .error (.valueError "Unknown format code f for object of type str")

/-- Inner annotation loop: `for j, index in enumerate(M.index)` for a
fixed column.  On an error the events already drawn are kept. -/
def annotateRows (t : MatrixDF) (i : ℕ) (colLabel : ℚ) :
    ℕ → List ℚ → Except (List Ev × PyErr) (List Ev)
  | _, [] => .ok []
  | j, rowLabel :: rest =>
    match annotateCell t i j colLabel rowLabel with
    | .error e => .error ([], e)
    | .ok evs =>
      match annotateRows t i colLabel (j + 1) rest with
      | .error (done, e) => .error (evs ++ done, e)
      | .ok done => .ok (evs ++ done)

/-- Outer annotation loop: `for i, col in enumerate(M.columns)`. -/
def annotateCols (t : MatrixDF) :
    ℕ → List ℚ → Except (List Ev × PyErr) (List Ev)
  | _, [] => .ok []
  | i, colLabel :: rest =>
    match annotateRows t i colLabel 0 t.rowIdx with
    | .error (done, e) => .error (done, e)
    | .ok evs =>
      match annotateCols t (i + 1) rest with
      | .error (done, e) => .error (evs ++ done, e)
      | .ok done => .ok (evs ++ done)

/-- `plot_matrix(M, xlabel='Te', ylabel='Hm0', zlabel=None,
show_values=True, ax=None)`: asserts `M` is a `DataFrame`, creates a
figure when no axes were supplied, shows the matrix as an image, adds a
colorbar (labelled when requested), sets the axis labels, annotates the
finite cells when `show_values` holds, resets the ticks, and returns the
axes. -/
def plot_matrix (M : MInput) (xlabel ylabel : String) (zlabel : Option String)
    (show_values : Bool) (ax : Option ℕ) : MatOut :=
  match M with
  | .notDf _ =>
      ⟨[], some (.assertionError "M must be of type pd.DataFrame"), none, M⟩
  | .df t =>
    let pre : List Ev := match ax with
      | none => [Ev.createFig]
      | some _ => []
    let a : ℕ := match ax with
      | none => 0
      | some b => b
    match imshowStep t with
    | .error e => ⟨pre, some e, none, M⟩
    | .ok imEv =>
      let cbar : List Ev := Ev.colorbar :: (match zlabel with
        | some z => [Ev.colorbarLabel z]
        | none => [])
      let head := pre ++ [imEv] ++ cbar
        ++ [Ev.setXLabel xlabel, Ev.setYLabel ylabel]
      match (if show_values then annotateCols t 0 t.colIdx else .ok []) with
      | .error (done, e) => ⟨head ++ done, some e, none, M⟩
      | .ok anns =>
        ⟨head ++ anns
          ++ [Ev.setXTicks t.colIdx.length, Ev.setYTicks t.rowIdx.length,
              Ev.setXTickLabels t.colIdx, Ev.setYTickLabels t.rowIdx],
         none, some a, M⟩

/-- The text annotations of a trace, in order. -/
def annTexts : List Ev → List (ℚ × ℚ × String)
  | [] => []
  | .text x y s :: rest => (x, y, s) :: annTexts rest
  | _ :: rest => annTexts rest

/-- The annotations the spec describes for a matrix: column-major over
the grid, one per finite cell, holding the cell value rendered with two
decimal places at the cell grid position.  This follows the spec words
and is compared against the trace of `plot_matrix`. -/
def specAnnRows (t : MatrixDF) (i : ℕ) : ℕ → List ℚ → List (ℚ × ℚ × String)
  | _, [] => []
  | j, _ :: rest =>
    (match cellAt t j i with
      | .num q => [((i : ℚ), (j : ℚ), format2f q)]
      | _ => []) ++ specAnnRows t i (j + 1) rest

/-- Outer loop of the spec-side annotation description. -/
def specAnnCols (t : MatrixDF) : ℕ → List ℚ → List (ℚ × ℚ × String)
  | _, [] => []
  | i, _ :: rest => specAnnRows t i 0 t.rowIdx ++ specAnnCols t (i + 1) rest

/-- All annotations of the matrix per the spec words. -/
def specAnnotations (t : MatrixDF) : List (ℚ × ℚ × String) :=
  specAnnCols t 0 t.colIdx

/-- An argument passed as `H`, `lambda_w` or `D` to `plot_chakrabarti`: a
Python scalar, a 1-D numpy array, a pandas `Series` (with its name and
integer index labels), a Python list or a Python string.  Only the first
three pass the `isinstance` assertions. -/
inductive CInput where
  | scalar (q : ℚ)
  | array (vs : List PyVal)
  | series (name : String) (idx : List ℤ) (vs : List PyVal)
  | pylist (vs : List ℚ)
  | pystr (s : String)
  deriving DecidableEq, Repr

/-- `isinstance(x, (np.ndarray, float, int, np.int64, pd.Series))`. -/
def isNumericType : CInput → Bool
  | .scalar _ => true
  | .array _ => true
  | .series _ _ _ => true
  | .pylist _ => false
  | .pystr _ => false

/-- `isinstance(x, np.ndarray)`. -/
def isNdarray : CInput → Bool
  | .array _ => true
  | _ => false

/-- `isinstance(x, pd.Series)`. -/
def isSeriesInp : CInput → Bool
  | .series _ _ _ => true
  | _ => false

/-- The collection-branch condition exactly as written in the source:
`any([(isinstance(H, np.ndarray) or isinstance(H, pd.Series)),
(isinstance(lambda_w, np.ndarray) or isinstance(H, pd.Series)),
(isinstance(D, np.ndarray) or isinstance(H, pd.Series))])` — note the
second and third disjuncts test `H`, not `lambda_w` or `D`, for being a
`Series`. -/
def collectionBranch (H lambda_w D : CInput) : Bool :=
  (isNdarray H || isSeriesInp H) || (isNdarray lambda_w || isSeriesInp H)
    || (isNdarray D || isSeriesInp H)

/-- `x.squeeze().shape`: a 1-D numpy array or a `Series` of length one
squeezes to a 0-d scalar (shape `()`); other lengths keep shape `(n,)`.
A Python scalar or list has no `squeeze` attribute. -/
def squeezeShape : CInput → Except PyErr (List ℕ)
  | .scalar _ => .error (.attributeError "object has no attribute squeeze")
  | .array vs => .ok (if vs.length = 1 then [] else [vs.length])
  | .series _ _ vs => .ok (if vs.length = 1 then [] else [vs.length])
  | .pylist _ => .error (.attributeError "object has no attribute squeeze")
  | .pystr _ => .error (.attributeError "object has no attribute squeeze")

/-- One row of the assembled `mvals` frame: its index label and the three
column values. -/
structure MRow where
  idx : ℤ
  hVal : PyVal
  lwVal : PyVal
  dVal : PyVal
  deriving DecidableEq, Repr

/-- The assembled `mvals` frame: the name of its first column (`'H'` for
array and scalar inputs, the series name for a `Series` `H`) and its
rows. -/
structure MVals where
  hName : String
  rows : List MRow
  deriving DecidableEq, Repr

/-- Value of a series at an index label (first occurrence). -/
def lookupLabel (i : ℤ) : List ℤ → List PyVal → Option PyVal
  | [], _ => none
  | _, [] => none
  | j :: js, v :: vs => if i = j then some v else lookupLabel i js vs

/-- `mvals[col] = x`: pandas column assignment onto a frame with the
given index labels.  A scalar broadcasts, a 1-D array assigns
positionally (lengths must agree), a `Series` aligns on the index with
NaN for missing labels. -/
def assignColumn (labels : List ℤ) : CInput → Except PyErr (List PyVal)
  | .scalar q => .ok (List.replicate labels.length (.num q))
  | .array ws =>
      if ws.length = labels.length then .ok ws
      else .error (.valueError "Length of values does not match length of index")
  | .series _ sidx svs =>
      .ok (labels.map (fun i => (lookupLabel i sidx svs).getD .nan))
  | .pylist _ => .error (.typeError "cannot assign a list")
  | .pystr _ => .error (.typeError "cannot assign a str")

/-- Zip index labels and the three column value lists into rows. -/
def zipRows : List ℤ → List PyVal → List PyVal → List PyVal → List MRow
  | i :: is, h :: hs, l :: ls, d :: ds => ⟨i, h, l, d⟩ :: zipRows is hs ls ds
  | _, _, _, _ => []

/-- The default integer index `0, 1, …, n-1` of a fresh frame. -/
def rangeIdx (n : ℕ) : List ℤ :=
  (List.range n).map (fun (i : ℕ) => (i : ℤ))

/-- The collection branch of `plot_chakrabarti`: squeeze the three
inputs, assert the squeezed shapes agree, then build `mvals` from an
array `H` (fresh integer index, column named `'H'`) or from a `Series`
`H` (its own index and name).  When `H` is a scalar the branch leaves
`mvals` unbound and the later `mvals.iterrows()` raises a name error
(unreachable for Python scalars, whose `squeeze` already fails). -/
def buildCollection (H lambda_w D : CInput) : Except PyErr MVals := do
  let n_H ← squeezeShape H
  let n_lambda_w ← squeezeShape lambda_w
  let n_D ← squeezeShape D
  if n_H = n_lambda_w ∧ n_H = n_D then
    match H with
    | .array hs => do
        let labels := rangeIdx hs.length
        let lws ← assignColumn labels lambda_w
        let ds ← assignColumn labels D
        .ok ⟨"H", zipRows labels hs lws ds⟩
    | .series nm sidx svs => do
        let lws ← assignColumn sidx lambda_w
        let ds ← assignColumn sidx D
        .ok ⟨nm, zipRows sidx svs lws ds⟩
    | _ => .error (.nameError "name mvals is not defined")
  else
    .error (.assertionError "H, lambda_w, and D must be same shape")

/-- `np.array([x])` followed by use as a new column of the one-row frame
in the scalar branch: wrapping a Python scalar gives a one-element 1-D
array; wrapping a `Series`, array or list of length `n` gives a 2-D
`(1, n)` array, which pandas accepts as a single column of the one-row
frame exactly when `n = 1` and otherwise rejects; wrapping a string
gives a one-element string array. -/
def assignWrapped : CInput → Except PyErr PyVal
  | .scalar q => .ok (.num q)
  | .array vs =>
      match vs with
      | [v] => .ok v
      | _ => .error (.valueError "Wrong number of items passed")
  | .series _ _ vs =>
      match vs with
      | [v] => .ok v
      | _ => .error (.valueError "Wrong number of items passed")
  | .pylist vs =>
      match vs with
      | [q] => .ok (.num q)
      | _ => .error (.valueError "Wrong number of items passed")
  | .pystr s => .ok (.str s)

/-- The scalar-promotion branch of `plot_chakrabarti`: each input is
wrapped by `np.array([...])` and the three one-element columns form a
single-row frame with the default index label `0`. -/
def buildScalar (H lambda_w D : CInput) : Except PyErr MVals := do
  let h ← assignWrapped H
  let lw ← assignWrapped lambda_w
  let d ← assignWrapped D
  .ok ⟨"H", [⟨0, h, lw, d⟩]⟩

/-- The `mvals` frame assembled by `plot_chakrabarti` before drawing. -/
def buildMVals (H lambda_w D : CInput) : Except PyErr MVals :=
  if collectionBranch H lambda_w D then buildCollection H lambda_w D
  else buildScalar H lambda_w D

/-- `'%.2g' % v` on a row value: numbers and NaN render, a string operand
raises `TypeError`. -/
def g2 : PyVal → Except PyErr String
  | .num q => .ok (toString q)
  | .nan => .ok "nan"
  | .str _ => .error (.typeError "must be real number, not str")

/-- The label attached to one marker. -/
def markerLabel (h lw d : PyVal) : Except PyErr String := do
  let a ← g2 h
  let b ← g2 lw
  let c ← g2 d
  .ok ("$H = " ++ a ++ ",\\,$lambda_\x7bw\x7d$ = " ++ b ++ ",\\,D = "
    ++ c ++ "$")

/-- `row['H']`: the first column is reached by the name `'H'`, which
raises `KeyError` when a `Series` `H` carried a different name. -/
def getHColumn (hName : String) (r : MRow) : Except PyErr PyVal :=
  if hName = "H" then .ok r.hVal else .error (.keyError "H")

/-- One iteration of the marker loop: `xx = row['H']/row['D']`,
`yy = np.pi*row['D']/row['lambda_w']`, the `%.2g` label, then
`ax.plot(xx, yy, 'o', label=lab)`. -/
def rowMarker (pi : ℚ) (hName : String) (r : MRow) : Except PyErr Ev := do
  let hv ← getHColumn hName r
  let xx ← pyDiv hv r.dVal
  let p ← pyMul (.num pi) r.dVal
  let yy ← pyDiv p r.lwVal
  let lab ← markerLabel hv r.lwVal r.dVal
  .ok (Ev.marker xx yy lab)

/-- The marker loop over `mvals.iterrows()`: emits one marker per row and
reports the loop variable `index` after the last iteration (`none` when
the loop body never ran).  On an error the markers already drawn are
kept. -/
def plotRows (pi : ℚ) (hName : String) :
    List MRow → Except (List Ev × PyErr) (List Ev × Option ℤ)
  | [] => .ok ([], none)
  | r :: rs =>
    match rowMarker pi hName r with
    | .error e => .error ([], e)
    | .ok ev =>
      match plotRows pi hName rs with
      | .error (done, e) => .error (ev :: done, e)
      | .ok (done, last) => .ok (ev :: done, some (last.getD r.idx))

/-- The fixed regime-boundary drawing of `plot_chakrabarti`, in source
order: log scales, the three dashed drag bounds (levels 20, 1.5, 0.25,
each cut at `x < 0.14*pi/level`), the dashed diffraction boundary at
`x = 0.5`, the breaking-limit curve `y = 0.14*pi/x`, and the region
labels. -/
def boundaryEvents (pi : ℚ) : List Ev :=
  [ Ev.setXScaleLog, Ev.setYScaleLog,
    Ev.hline 20 (14 / 100 * pi / 20),
    Ev.text (125 / 10000) 30 "drag",
    Ev.hline (3 / 2) (14 / 100 * pi / (3 / 2)),
    Ev.text (2 / 100) 7 "inertia \n& drag",
    Ev.hline (1 / 4) (14 / 100 * pi / (1 / 4)),
    Ev.text (8 / 100) (7 / 10) "large\ninertia",
    Ev.text (8 / 100) (6 / 100) "all\ninertia",
    Ev.vline (1 / 2) (1 / 100) (14 / 100 * pi / (1 / 2)),
    Ev.text 2 (6 / 100) "diffraction",
    Ev.curve (14 / 100 * pi),
    Ev.text 1 7 "wave\nbreaking\n$H/\\lambda_w > 0.14$" ]

/-- The figure-creation events: `plt.figure(); ax = plt.gca()` when no
axes were supplied. -/
def preEvents (ax : Option ℕ) : List Ev :=
  match ax with
  | none => [Ev.createFig]
  | some _ => []

/-- The closing events of a successful `plot_chakrabarti` call: axis
limits, axis labels and `plt.tight_layout()`. -/
def chakTail : List Ev :=
  [ Ev.setXLim (1 / 100) 10, Ev.setYLim (1 / 100) 50,
    Ev.setXLabel "Diffraction parameter, $\\frac\x7b\\pi D\x7d\x7b\\lambda_w\x7d$",
    Ev.setYLabel "KC parameter, $\\frac\x7bH\x7d\x7bD\x7d$",
    Ev.tightLayout ]

/-- Result of a `plot_chakrabarti` call. -/
structure ChakOut where
  trace : List Ev
  err : Option PyErr
  ret : Option ℕ
  finalH : CInput
  finalLambda : CInput
  finalD : CInput
  deriving Repr

/-- `plot_chakrabarti(H, lambda_w, D, ax=None)`: the three `isinstance`
assertions, the `mvals` assembly (collection or scalar branch), figure
creation when no axes were supplied, the fixed boundary drawing, one
marker per row, `ax.legend(...)` when the final loop index exceeds zero
(a name error when the loop never ran), the fixed axis limits and labels,
and `plt.tight_layout()`.  The function body has no `return` statement,
so the call returns Python `None`. -/
def plot_chakrabarti (pi : ℚ) (H lambda_w D : CInput) (ax : Option ℕ) :
    ChakOut :=
  if ¬ isNumericType H then
    ⟨[], some (.assertionError "H must be a real numeric type"), none,
      H, lambda_w, D⟩
  else if ¬ isNumericType lambda_w then
    ⟨[], some (.assertionError "lambda_w must be a real numeric type"), none,
      H, lambda_w, D⟩
  else if ¬ isNumericType D then
    ⟨[], some (.assertionError "D must be a real numeric type"), none,
      H, lambda_w, D⟩
  else
    match buildMVals H lambda_w D with
    | .error e => ⟨[], some e, none, H, lambda_w, D⟩
    | .ok m =>
      let head := preEvents ax ++ boundaryEvents pi
      match plotRows pi m.hName m.rows with
      | .error (done, e) => ⟨head ++ done, some e, none, H, lambda_w, D⟩
      | .ok (markers, none) =>
          ⟨head ++ markers, some (.nameError "name index is not defined"),
            none, H, lambda_w, D⟩
      | .ok (markers, some lastIdx) =>
          let leg : List Ev := if 0 < lastIdx then [Ev.legend] else []
          ⟨head ++ markers ++ leg ++ chakTail, none, none, H, lambda_w, D⟩

/-- Whether an event is a data marker (`'o'` plot). -/
def isMarker : Ev → Bool
  | .marker _ _ _ => true
  | _ => false

/-- Number of data markers in a trace. -/
def markerCount (t : List Ev) : ℕ :=
  (t.filter isMarker).length

/-- A concrete stand-in for the float value of `np.pi`, used to close
counterexample statements. -/
def pi0 : ℚ := 314159 / 100000

/-- Whether a cell value is an actual number. -/
def PyVal.isNum : PyVal → Bool
  | .num _ => true
  | _ => false

/-- Whether all three values of a row are numbers. -/
def rowNumeric (r : MRow) : Bool :=
  r.hVal.isNum && r.lwVal.isNum && r.dVal.isNum

/-! ## Claim theorems -/

/-- C1: the spec claims `plot_chakrabarti` returns the drawing surface it
drew on, and the docstring of the function states `Returns ax`; the
function body, however, ends at `plt.tight_layout()` with no `return`
statement, so every call — including the valid scalar call
`plot_chakrabarti(H=8, lambda_w=200, D=5)`, which draws successfully —
returns Python `None` rather than the axes. -/
theorem C1_chakrabarti_returns_none (pi : ℚ) (H lambda_w D : CInput)
    (ax : Option ℕ) :
    (plot_chakrabarti pi H lambda_w D ax).ret = none ∧
    (plot_chakrabarti pi (.scalar 8) (.scalar 200) (.scalar 5) ax).err = none ∧
    (plot_chakrabarti pi (.scalar 8) (.scalar 200) (.scalar 5) ax).ret = none := by
  refine ⟨?_, ?_, ?_⟩
  · unfold plot_chakrabarti
    repeat first
      | rfl
      | split
  · cases ax <;> rfl
  · cases ax <;> rfl

/-- C7: `plot_spectrum` on a non-DataFrame input and
`plot_elevation_timeseries` on a non-DataFrame input both raise their
type-validation `AssertionError` with an empty trace — nothing is drawn —
in particular for the inputs `"not a table"` and `42`. -/
theorem C7_type_errors_before_drawing (pi : ℚ) (s1 s2 : String)
    (ax1 ax2 : Option ℕ) :
    (plot_spectrum pi (.notDf s1) ax1).err
        = some (.assertionError "S must be of type pd.DataFrame") ∧
    (plot_spectrum pi (.notDf s1) ax1).trace = [] ∧
    (plot_elevation_timeseries (.notDf s2) ax2).err
        = some (.assertionError "eta must be of type pd.DataFrame") ∧
    (plot_elevation_timeseries (.notDf s2) ax2).trace = [] ∧
    (plot_spectrum pi (.notDf "not a table") none).err
        = some (.assertionError "S must be of type pd.DataFrame") ∧
    (plot_spectrum pi (.notDf "not a table") none).trace = [] ∧
    (plot_elevation_timeseries (.notDf "42") none).err
        = some (.assertionError "eta must be of type pd.DataFrame") ∧
    (plot_elevation_timeseries (.notDf "42") none).trace = [] :=
  ⟨rfl, rfl, rfl, rfl, rfl, rfl, rfl, rfl⟩

/-- C9: none of the four plotting functions mutates its input data: each
embedded function leaves the input object exactly as supplied (the source
only reads the inputs — `S/(2*np.pi)`, `f*2*np.pi`, `M.loc[...]` and the
`mvals` assembly all build fresh objects). -/
theorem C9_inputs_not_mutated (pi : ℚ) (S eta : DFInput) (M : MInput)
    (xl yl : String) (zl : Option String) (sv : Bool)
    (H lambda_w D : CInput) (ax1 ax2 ax3 ax4 : Option ℕ) :
    (plot_spectrum pi S ax1).final = S ∧
    (plot_elevation_timeseries eta ax2).final = eta ∧
    (plot_matrix M xl yl zl sv ax3).final = M ∧
    (plot_chakrabarti pi H lambda_w D ax4).finalH = H ∧
    (plot_chakrabarti pi H lambda_w D ax4).finalLambda = lambda_w ∧
    (plot_chakrabarti pi H lambda_w D ax4).finalD = D := by
  refine ⟨?_, ?_, ?_, ?_, ?_, ?_⟩
  · cases S <;> rfl
  · cases eta <;> rfl
  · cases M with
    | notDf s => rfl
    | df t =>
      unfold plot_matrix
      repeat first
        | rfl
        | split
  all_goals
    unfold plot_chakrabarti
    repeat first
      | rfl
      | split

/-- C10: the collection-handling branch of `plot_chakrabarti` (holding
the shape-consistency check) is entered if and only if `H` is a pandas
`Series` or at least one of `H`, `lambda_w`, `D` is a numpy array — the
source tests `isinstance(H, pd.Series)` in all three disjuncts — so for a
scalar `H` with a `Series` passed only as `lambda_w` or only as `D` the
shape check is skipped and the scalar-promotion branch runs instead:
whatever the series length, the call never raises the shape-mismatch
error, and for a length-one `Series` it even succeeds, plotting one
marker. -/
theorem C10_collection_branch_condition (pi h lw d dv : ℚ) (nm : String)
    (sidx : List ℤ) (svs : List PyVal) (ax : Option ℕ) (H lambda_w D : CInput) :
    collectionBranch H lambda_w D
      = (isSeriesInp H || isNdarray H || isNdarray lambda_w || isNdarray D) ∧
    collectionBranch (.scalar h) (.series nm sidx svs) (.scalar d) = false ∧
    buildMVals (.scalar h) (.series nm sidx svs) (.scalar d)
      = buildScalar (.scalar h) (.series nm sidx svs) (.scalar d) ∧
    (plot_chakrabarti pi (.scalar h) (.series nm sidx svs) (.scalar d) ax).err
      ≠ some (.assertionError "H, lambda_w, and D must be same shape") ∧
    collectionBranch (.scalar h) (.scalar d) (.series nm sidx svs) = false ∧
    buildMVals (.scalar h) (.scalar d) (.series nm sidx svs)
      = buildScalar (.scalar h) (.scalar d) (.series nm sidx svs) ∧
    (plot_chakrabarti pi (.scalar h) (.scalar d) (.series nm sidx svs) ax).err
      ≠ some (.assertionError "H, lambda_w, and D must be same shape") ∧
    (plot_chakrabarti pi (.scalar h) (.series nm sidx [.num lw]) (.scalar d)
        ax).err = none ∧
    markerCount (plot_chakrabarti pi (.scalar h) (.series nm sidx [.num lw])
        (.scalar d) ax).trace = 1 ∧
    (plot_chakrabarti pi (.scalar h) (.scalar lw) (.series nm sidx [.num dv])
        ax).err = none ∧
    markerCount (plot_chakrabarti pi (.scalar h) (.scalar lw)
        (.series nm sidx [.num dv]) ax).trace = 1 := by
  refine ⟨?_, rfl, rfl, ?_, rfl, rfl, ?_, rfl, by cases ax <;> rfl, rfl,
    by cases ax <;> rfl⟩
  · cases H <;> cases lambda_w <;> cases D <;> rfl
  · rcases svs with _ | ⟨v, _ | ⟨v2, rest⟩⟩
    · simp [show (plot_chakrabarti pi (.scalar h) (.series nm sidx [])
          (.scalar d) ax).err
          = some (.valueError "Wrong number of items passed") from rfl]
    · cases v with
      | num q =>
        simp [show (plot_chakrabarti pi (.scalar h) (.series nm sidx [.num q])
            (.scalar d) ax).err = none from rfl]
      | nan =>
        simp [show (plot_chakrabarti pi (.scalar h) (.series nm sidx [.nan])
            (.scalar d) ax).err = none from rfl]
      | str s =>
        simp [show (plot_chakrabarti pi (.scalar h) (.series nm sidx [.str s])
            (.scalar d) ax).err
            = some (.typeError "unsupported operand type for div") from rfl]
    · simp [show (plot_chakrabarti pi (.scalar h)
          (.series nm sidx (v :: v2 :: rest)) (.scalar d) ax).err
          = some (.valueError "Wrong number of items passed") from rfl]
  · rcases svs with _ | ⟨v, _ | ⟨v2, rest⟩⟩
    · simp [show (plot_chakrabarti pi (.scalar h) (.scalar d)
          (.series nm sidx []) ax).err
          = some (.valueError "Wrong number of items passed") from rfl]
    · cases v with
      | num q =>
        simp [show (plot_chakrabarti pi (.scalar h) (.scalar d)
            (.series nm sidx [.num q]) ax).err = none from rfl]
      | nan =>
        simp [show (plot_chakrabarti pi (.scalar h) (.scalar d)
            (.series nm sidx [.nan]) ax).err = none from rfl]
      | str s =>
        simp [show (plot_chakrabarti pi (.scalar h) (.scalar d)
            (.series nm sidx [.str s]) ax).err
            = some (.typeError "unsupported operand type for div") from rfl]
    · simp [show (plot_chakrabarti pi (.scalar h) (.scalar d)
          (.series nm sidx (v :: v2 :: rest)) ax).err
          = some (.valueError "Wrong number of items passed") from rfl]

/-- C2 counterexample: the claimed call
`plot_chakrabarti(H=[8,8], lambda_w=[200], D=[5,15])` passes Python
lists, which already fail the `isinstance` assertion — the call fails
with the type-validation error, not with the shape-mismatch error the
claim states. -/
theorem C2_counterexample_lists_fail_type_check :
    (plot_chakrabarti pi0 (.pylist [8, 8]) (.pylist [200]) (.pylist [5, 15])
        none).err
      = some (.assertionError "H must be a real numeric type") ∧
    (plot_chakrabarti pi0 (.pylist [8, 8]) (.pylist [200]) (.pylist [5, 15])
        none).err
      ≠ some (.assertionError "H, lambda_w, and D must be same shape") := by
  refine ⟨rfl, ?_⟩
  intro h
  simp [plot_chakrabarti, isNumericType] at h

/-- C2 (amended): when the collection branch is entered (`H` an ndarray
or `Series`, or `lambda_w` or `D` an ndarray) and all three inputs
support squeezing, mismatching squeezed shapes make the call fail with
the shape-mismatch `AssertionError`, before anything is drawn; in
particular the numpy-array call `H=np.array([8,8])`,
`lambda_w=np.array([200])`, `D=np.array([5,15])` fails this way.  Python
lists never reach the shape check: they fail the type assertion. -/
theorem C2_shape_mismatch_error (pi : ℚ) (H lambda_w D : CInput)
    (ax : Option ℕ) (sH sLw sD : List ℕ)
    (h1 : isNumericType H = true) (h2 : isNumericType lambda_w = true)
    (h3 : isNumericType D = true)
    (hb : collectionBranch H lambda_w D = true)
    (e1 : squeezeShape H = .ok sH) (e2 : squeezeShape lambda_w = .ok sLw)
    (e3 : squeezeShape D = .ok sD)
    (hne : ¬(sH = sLw ∧ sH = sD)) :
    (plot_chakrabarti pi H lambda_w D ax).err
        = some (.assertionError "H, lambda_w, and D must be same shape") ∧
    (plot_chakrabarti pi H lambda_w D ax).trace = [] ∧
    (plot_chakrabarti pi (.array [.num 8, .num 8]) (.array [.num 200])
        (.array [.num 5, .num 15]) none).err
      = some (.assertionError "H, lambda_w, and D must be same shape") ∧
    (plot_chakrabarti pi (.array [.num 8, .num 8]) (.array [.num 200])
        (.array [.num 5, .num 15]) none).trace = [] := by
  have hmv : buildMVals H lambda_w D
      = .error (.assertionError "H, lambda_w, and D must be same shape") := by
    unfold buildMVals buildCollection
    simp only [hb, if_true]
    rw [e1, e2, e3]
    exact if_neg hne
  refine ⟨?_, ?_, rfl, rfl⟩
  all_goals
    unfold plot_chakrabarti
    rw [hmv]
    simp [h1, h2, h3]

/-- C2 witness: the amended shape-mismatch statement applied at the
concrete numpy-array inputs of the claim. -/
theorem C2_shape_mismatch_error_witness :
    (plot_chakrabarti pi0 (.array [.num 8, .num 8]) (.array [.num 200])
        (.array [.num 5, .num 15]) none).err
      = some (.assertionError "H, lambda_w, and D must be same shape") ∧
    (plot_chakrabarti pi0 (.array [.num 8, .num 8]) (.array [.num 200])
        (.array [.num 5, .num 15]) none).trace = [] := by
  have h := C2_shape_mismatch_error pi0 (.array [.num 8, .num 8])
    (.array [.num 200]) (.array [.num 5, .num 15]) none [2] [] [2]
    rfl rfl rfl rfl rfl rfl rfl (by simp)
  exact ⟨h.1, h.2.1⟩

/-- C3: each plotting function raises its validation errors before
touching the drawing surface — a failed `isinstance` assertion, and in
`plot_chakrabarti` any failure of the `mvals` assembly (shape mismatch
included), leaves an empty trace.  In the matrix and Chakrabarti paths,
surface creation happens before the later data-driven validation: a
matrix whose cells cannot be converted to floats makes `plot_matrix`
create the figure and then fail at `imshow`, leaving the caller an empty
created surface, and string-valued numpy arrays make `plot_chakrabarti`
create the figure, draw the boundaries and then fail at the per-row
arithmetic. -/
theorem C3_validation_order (pi : ℚ) (s : String) (ax : Option ℕ)
    (xl yl : String) (zl : Option String) (sv : Bool)
    (H lambda_w D : CInput) (e : PyErr) :
    (plot_spectrum pi (.notDf s) ax).trace = [] ∧
    (plot_elevation_timeseries (.notDf s) ax).trace = [] ∧
    (plot_matrix (.notDf s) xl yl zl sv ax).trace = [] ∧
    (isNumericType H = false →
      (plot_chakrabarti pi H lambda_w D ax).trace = []) ∧
    (isNumericType H = true → isNumericType lambda_w = true →
      isNumericType D = true → buildMVals H lambda_w D = .error e →
      (plot_chakrabarti pi H lambda_w D ax).trace = [] ∧
      (plot_chakrabarti pi H lambda_w D ax).err = some e) ∧
    (plot_matrix (.df ⟨[1], [2], [[.str "x"]]⟩) "Te" "Hm0" none true none).err
      = some (.typeError "Image data cannot be converted to float") ∧
    (plot_matrix (.df ⟨[1], [2], [[.str "x"]]⟩) "Te" "Hm0" none true none).trace
      = [Ev.createFig] ∧
    (plot_chakrabarti pi (.array [.str "a", .str "b"])
        (.array [.str "a", .str "b"]) (.array [.str "a", .str "b"]) none).err
      = some (.typeError "unsupported operand type for div") ∧
    (plot_chakrabarti pi (.array [.str "a", .str "b"])
        (.array [.str "a", .str "b"]) (.array [.str "a", .str "b"]) none).trace
      = Ev.createFig :: boundaryEvents pi := by
  refine ⟨rfl, rfl, rfl, ?_, ?_, rfl, rfl, rfl, ?_⟩
  · intro hH
    unfold plot_chakrabarti
    simp [hH]
  · intro h1 h2 h3 hmv
    unfold plot_chakrabarti
    rw [hmv]
    simp [h1, h2, h3]
  · show Ev.createFig :: (boundaryEvents pi ++ []) = _
    simp

/-- C3 witness: the order-of-operations statement applied at concrete
inputs — the mismatched numpy-array call leaves an empty trace with the
shape-mismatch error, and a string `H` leaves an empty trace. -/
theorem C3_validation_order_witness :
    (plot_chakrabarti pi0 (.array [.num 8, .num 8]) (.array [.num 200])
        (.array [.num 5, .num 15]) none).trace = [] ∧
    (plot_chakrabarti pi0 (.array [.num 8, .num 8]) (.array [.num 200])
        (.array [.num 5, .num 15]) none).err
      = some (.assertionError "H, lambda_w, and D must be same shape") ∧
    (plot_chakrabarti pi0 (.pystr "x") (.scalar 1) (.scalar 2) none).trace
      = [] := by
  have h := C3_validation_order pi0 "s" none "Te" "Hm0" none true
    (.array [.num 8, .num 8]) (.array [.num 200]) (.array [.num 5, .num 15])
    (.assertionError "H, lambda_w, and D must be same shape")
  have h2 := C3_validation_order pi0 "s" none "Te" "Hm0" none true
    (.pystr "x") (.scalar 1) (.scalar 2) (.typeError "x")
  exact ⟨(h.2.2.2.2.1 rfl rfl rfl rfl).1, (h.2.2.2.2.1 rfl rfl rfl rfl).2,
    h2.2.2.2.1 rfl⟩

/-- The line events contributed by the per-column plotting of
`_xy_plot`. -/
theorem plottedLines_map_line (xs : List ℚ) (ycols : List (String × List ℚ))
    (rest : List Ev) :
    plottedLines (ycols.map (fun c => Ev.line xs c.2) ++ rest)
      = ycols.map (fun c => (xs, c.2)) ++ plottedLines rest := by
  induction ycols with
  | nil => rfl
  | cons c cs ih => simp [plottedLines, ih]

/-- Figure creation contributes no line event. -/
theorem plottedLines_createFig (rest : List Ev) :
    plottedLines (Ev.createFig :: rest) = plottedLines rest := rfl

/-- C4: `plot_spectrum` plots, for every spectral density table with `N`
rows, x-values equal to the frequency index multiplied by `2*pi`,
densities equal to the original values divided by `2*pi`, and `N` points
per column. -/
theorem C4_spectrum_angular_transform (pi : ℚ) (t : WaveDF) (ax : Option ℕ)
    (N : ℕ) (hidx : t.dfIdx.length = N)
    (hcols : ∀ c ∈ t.cols, (c.2 : List ℚ).length = N) :
    plottedLines (plot_spectrum pi (.df t) ax).trace
      = t.cols.map (fun c => (t.dfIdx.map (fun q => q * (2 * pi)),
          c.2.map (fun q => q / (2 * pi)))) ∧
    ∀ p ∈ plottedLines (plot_spectrum pi (.df t) ax).trace,
      p.1.length = N ∧ p.2.length = N := by
  have hmain : plottedLines (plot_spectrum pi (.df t) ax).trace
      = t.cols.map (fun c => (t.dfIdx.map (fun q => q * (2 * pi)),
          c.2.map (fun q => q / (2 * pi)))) := by
    have hfun : (fun q : ℚ => q * 2 * pi) = fun q => q * (2 * pi) :=
      funext fun q => mul_assoc q 2 pi
    cases ax with
    | none =>
        show plottedLines (Ev.createFig :: _) = _
        rw [plottedLines_createFig, plottedLines_map_line, List.map_map]
        simp [hfun, Function.comp, plottedLines]
    | some a =>
        show plottedLines (_ ++ _) = _
        rw [plottedLines_map_line, List.map_map]
        simp [hfun, Function.comp, plottedLines]
  refine ⟨hmain, ?_⟩
  intro p hp
  rw [hmain] at hp
  obtain ⟨c, hc, hpc⟩ := List.mem_map.mp hp
  subst hpc
  exact ⟨by simp [hidx], by simp [hcols c hc]⟩

/-- C4 witness: the transform evaluated on a concrete two-row table. -/
theorem C4_spectrum_angular_transform_witness :
    plottedLines (plot_spectrum 3 (.df ⟨[1, 2], [("a", [4, 6])]⟩) none).trace
      = [([1 * (2 * 3), 2 * (2 * 3)], [4 / (2 * 3), 6 / (2 * 3)])] ∧
    ∀ p ∈ plottedLines
        (plot_spectrum 3 (.df ⟨[1, 2], [("a", [4, 6])]⟩) none).trace,
      p.1.length = 2 ∧ p.2.length = 2 := by
  have h := C4_spectrum_angular_transform 3 ⟨[1, 2], [("a", [4, 6])]⟩ none 2
    rfl (by intro c hc; simp at hc; subst hc; rfl)
  exact ⟨h.1, h.2⟩

/-! ## Helper lemmas for the Chakrabarti marker loop -/

/-- The index column of zipped rows recovers the labels when all four
lists share a length. -/
theorem zipRows_map_idx (labels : List ℤ) (hs ls ds : List PyVal)
    (hh : hs.length = labels.length) (hl : ls.length = labels.length)
    (hd : ds.length = labels.length) :
    (zipRows labels hs ls ds).map MRow.idx = labels := by
  induction labels generalizing hs ls ds with
  | nil =>
    cases hs <;> cases ls <;> cases ds <;> simp [zipRows]
  | cons a rest ih =>
    cases hs with
    | nil => simp at hh
    | cons h hs' =>
      cases ls with
      | nil => simp at hl
      | cons l ls' =>
        cases ds with
        | nil => simp at hd
        | cons d ds' =>
          simp only [zipRows, List.map_cons, List.length_cons] at *
          exact congrArg (a :: ·) (ih hs' ls' ds'
            (by omega) (by omega) (by omega))

/-- Zipped rows are numeric when the three value lists are built by
`PyVal.num`. -/
theorem zipRows_numeric (labels : List ℤ) (hs ls ds : List ℚ) :
    ∀ r ∈ zipRows labels (hs.map .num) (ls.map .num) (ds.map .num),
      rowNumeric r = true := by
  induction labels generalizing hs ls ds with
  | nil => intro r hr; simp [zipRows] at hr
  | cons a rest ih =>
    intro r hr
    cases hs with
    | nil => simp [zipRows] at hr
    | cons h hs' =>
      cases ls with
      | nil => simp [zipRows] at hr
      | cons l ls' =>
        cases ds with
        | nil => simp [zipRows] at hr
        | cons d ds' =>
          simp only [List.map_cons, zipRows, List.mem_cons] at hr
          rcases hr with h1 | h2
          · subst h1; rfl
          · exact ih hs' ls' ds' r h2

/-- A numeric row makes one marker at `(H/D, pi*D/lambda_w)`. -/
theorem rowMarker_num (pi h lw d : ℚ) (i : ℤ) :
    rowMarker pi "H" ⟨i, .num h, .num lw, .num d⟩
      = .ok (Ev.marker (.num (h / d)) (.num (pi * d / lw))
          ("$H = " ++ toString h ++ ",\\,$lambda_\x7bw\x7d$ = "
            ++ toString lw ++ ",\\,D = " ++ toString d ++ "$")) := rfl

/-- `getLast?` of a cons in terms of the tail. -/
theorem getLast?_cons_eq (a : ℤ) (l : List ℤ) :
    (a :: l).getLast? = some (l.getLast?.getD a) := by
  induction l generalizing a with
  | nil => rfl
  | cons b l ih =>
    rw [List.getLast?_cons_cons, ih b]
    simp

/-- The marker loop on numeric rows under the column name `'H'` succeeds,
makes one marker per row, and finishes with the loop variable holding the
last row label. -/
theorem plotRows_ok_numeric (pi : ℚ) (rows : List MRow)
    (hnum : ∀ r ∈ rows, rowNumeric r = true) :
    ∃ evs, plotRows pi "H" rows = .ok (evs, (rows.map MRow.idx).getLast?) ∧
      evs.length = rows.length ∧ ∀ e ∈ evs, isMarker e = true := by
  induction rows with
  | nil => exact ⟨[], rfl, rfl, by intro e he; simp at he⟩
  | cons r rs ih =>
    obtain ⟨evs, heq, hlen, hmark⟩ := ih (fun x hx => hnum x (List.mem_cons_of_mem r hx))
    have hr := hnum r (List.mem_cons_self r rs)
    obtain ⟨h, hv⟩ : ∃ q, r.hVal = .num q := by
      cases hval : r.hVal <;> simp [rowNumeric, hval, PyVal.isNum] at hr ⊢
    obtain ⟨lw, lv⟩ : ∃ q, r.lwVal = .num q := by
      cases hval : r.lwVal <;> simp [rowNumeric, hval, PyVal.isNum] at hr ⊢
    obtain ⟨d, dv⟩ : ∃ q, r.dVal = .num q := by
      cases hval : r.dVal <;> simp [rowNumeric, hval, PyVal.isNum] at hr ⊢
    have hrstruct : r = ⟨r.idx, .num h, .num lw, .num d⟩ := by
      cases r; simp_all
    refine ⟨Ev.marker (.num (h / d)) (.num (pi * d / lw))
        ("$H = " ++ toString h ++ ",\\,$lambda_\x7bw\x7d$ = "
          ++ toString lw ++ ",\\,D = " ++ toString d ++ "$") :: evs, ?_, ?_, ?_⟩
    · rw [plotRows]
      rw [hrstruct, rowMarker_num, heq]
      rw [List.map_cons, getLast?_cons_eq]
    · simp [hlen]
    · intro e he
      rcases List.mem_cons.mp he with h1 | h2
      · subst h1; rfl
      · exact hmark e h2

/-- Every row of a successful marker loop contributed its marker to the
emitted events. -/
theorem mem_plotRows (pi : ℚ) (hName : String) (rows : List MRow)
    (evs : List Ev) (l : Option ℤ) (r : MRow)
    (hok : plotRows pi hName rows = .ok (evs, l)) (hr : r ∈ rows) :
    ∃ ev, rowMarker pi hName r = .ok ev ∧ ev ∈ evs := by
  induction rows generalizing evs l with
  | nil => simp at hr
  | cons r0 rs ih =>
    rw [plotRows] at hok
    cases hm : rowMarker pi hName r0 with
    | error e => rw [hm] at hok; exact absurd hok (by simp)
    | ok ev0 =>
      rw [hm] at hok
      cases hrec : plotRows pi hName rs with
      | error p =>
        rw [hrec] at hok
        exact absurd hok (by cases p; simp)
      | ok p =>
        cases p with
        | mk evs' last' =>
          rw [hrec] at hok
          simp only [Except.ok.injEq, Prod.mk.injEq] at hok
          obtain ⟨h1, _⟩ := hok
          rcases List.mem_cons.mp hr with he | h2
          · subst he
            exact ⟨ev0, hm, by rw [← h1]; exact List.mem_cons_self _ _⟩
          · obtain ⟨ev, hev, hmem⟩ := ih evs' last' hrec h2
            exact ⟨ev, hev, by rw [← h1]; exact List.mem_cons_of_mem _ hmem⟩

/-- Length of the default integer index. -/
theorem rangeIdx_length (n : ℕ) : (rangeIdx n).length = n := by
  rw [rangeIdx, List.length_map, List.length_range]

/-- Last label of a nonempty default integer index. -/
theorem rangeIdx_getLast? (n : ℕ) (h : 0 < n) :
    (rangeIdx n).getLast? = some ((n : ℤ) - 1) := by
  obtain ⟨m, rfl⟩ : ∃ m, n = m + 1 := ⟨n - 1, by omega⟩
  simp [rangeIdx, List.range_succ]

/-- Bind on a successful `Except` computation. -/
theorem exceptOk_bind {ε α β : Type} (a : α) (f : α → Except ε β) :
    (Except.ok a : Except ε α) >>= f = f a := rfl

/-- Bind on a failed `Except` computation. -/
theorem exceptError_bind {ε α β : Type} (e : ε) (f : α → Except ε β) :
    (Except.error e : Except ε α) >>= f = Except.error e := rfl

/-- `buildMVals` on three equal-length numeric numpy arrays: the
collection branch runs, the shape check passes, and the rows zip the
three arrays over the default integer index. -/
theorem buildMVals_arrays (hs ls ds : List ℚ) (n : ℕ)
    (hh : hs.length = n) (hl : ls.length = n) (hd : ds.length = n) :
    buildMVals (.array (hs.map .num)) (.array (ls.map .num))
        (.array (ds.map .num))
      = .ok ⟨"H", zipRows (rangeIdx n) (hs.map .num) (ls.map .num)
          (ds.map .num)⟩ := by
  simp only [buildMVals, collectionBranch, isNdarray, isSeriesInp,
    Bool.true_or, Bool.or_true, if_true, buildCollection, squeezeShape,
    exceptOk_bind, List.length_map, hh, hl, hd, and_self, assignColumn,
    rangeIdx_length]

/-- The boundary drawing holds no marker. -/
theorem filter_isMarker_boundary (pi : ℚ) :
    (boundaryEvents pi).filter isMarker = [] := rfl

/-- Figure creation holds no marker. -/
theorem filter_isMarker_pre (ax : Option ℕ) :
    (preEvents ax).filter isMarker = [] := by cases ax <;> rfl

/-- The closing events hold no marker. -/
theorem filter_isMarker_tail : chakTail.filter isMarker = [] := rfl

/-- The boundary drawing holds no legend. -/
theorem legend_notMem_boundary (pi : ℚ) : Ev.legend ∉ boundaryEvents pi := by
  simp [boundaryEvents]

/-- Figure creation holds no legend. -/
theorem legend_notMem_pre (ax : Option ℕ) : Ev.legend ∉ preEvents ax := by
  cases ax <;> simp [preEvents]

/-- The closing events hold no legend. -/
theorem legend_notMem_tail : Ev.legend ∉ chakTail := by
  simp [chakTail]

/-- C6 counterexample: the claimed two-triple call
`plot_chakrabarti(H=[8,8], lambda_w=[200,200], D=[5,15])` passes Python
lists, which the `isinstance` assertion rejects — the call does not
succeed, so it plots no markers at all. -/
theorem C6_counterexample_lists_rejected :
    (plot_chakrabarti pi0 (.pylist [8, 8]) (.pylist [200, 200])
        (.pylist [5, 15]) none).err
      = some (.assertionError "H must be a real numeric type") ∧
    markerCount (plot_chakrabarti pi0 (.pylist [8, 8]) (.pylist [200, 200])
        (.pylist [5, 15]) none).trace = 0 :=
  ⟨rfl, rfl⟩

/-- C6 (amended): `plot_chakrabarti` plots one marker per assembled row
and renders the legend when the final loop index exceeds zero.  For
scalar and numpy-array inputs — whose assembled frame carries the default
integer index — this is exactly: a legend if and only if more than one
triple was supplied.  The claim examples hold once the Python lists are
replaced by numpy arrays: the scalar call `(8, 200, 5)` succeeds with one
marker and no legend, and the array call `([8,8], [200,200], [5,15])`
succeeds with two markers and a legend.  (For a `Series` `H` the legend
condition instead reads the series own last label, so the equivalence is
restricted to scalar and array inputs.) -/
theorem C6_marker_count_and_legend (pi : ℚ) (hs ls ds : List ℚ)
    (ax : Option ℕ) (n : ℕ) (hh : hs.length = n) (hl : ls.length = n)
    (hd : ds.length = n) (hn : 0 < n) :
    ((plot_chakrabarti pi (.scalar 8) (.scalar 200) (.scalar 5) none).err
        = none ∧
     markerCount
        (plot_chakrabarti pi (.scalar 8) (.scalar 200) (.scalar 5) none).trace
        = 1 ∧
     Ev.legend ∉
        (plot_chakrabarti pi (.scalar 8) (.scalar 200) (.scalar 5) none).trace) ∧
    ((plot_chakrabarti pi (.array [.num 8, .num 8])
        (.array [.num 200, .num 200]) (.array [.num 5, .num 15]) none).err
        = none ∧
     markerCount (plot_chakrabarti pi (.array [.num 8, .num 8])
        (.array [.num 200, .num 200]) (.array [.num 5, .num 15]) none).trace
        = 2 ∧
     Ev.legend ∈ (plot_chakrabarti pi (.array [.num 8, .num 8])
        (.array [.num 200, .num 200]) (.array [.num 5, .num 15]) none).trace) ∧
    ((plot_chakrabarti pi (.array (hs.map .num)) (.array (ls.map .num))
        (.array (ds.map .num)) ax).err = none ∧
     markerCount (plot_chakrabarti pi (.array (hs.map .num))
        (.array (ls.map .num)) (.array (ds.map .num)) ax).trace = n ∧
     (Ev.legend ∈ (plot_chakrabarti pi (.array (hs.map .num))
        (.array (ls.map .num)) (.array (ds.map .num)) ax).trace ↔ 1 < n)) := by
  refine ⟨⟨rfl, rfl, ?_⟩, ⟨rfl, rfl, ?_⟩, ?_⟩
  · show Ev.legend ∉ Ev.createFig :: (boundaryEvents pi ++ _)
    intro hmem
    simp [boundaryEvents, chakTail, Option.getD] at hmem
  · show Ev.legend ∈ Ev.createFig :: (boundaryEvents pi ++ _)
    refine List.mem_cons_of_mem _ (List.mem_append.mpr (Or.inr ?_))
    simp
  · -- general array path
    set rows := zipRows (rangeIdx n) (hs.map .num) (ls.map .num)
      (ds.map .num) with hrows
    have hb := buildMVals_arrays hs ls ds n hh hl hd
    have hnum := zipRows_numeric (rangeIdx n) hs ls ds
    obtain ⟨evs, hpr, hlen, hmark⟩ := plotRows_ok_numeric pi rows
      (by rw [hrows] at *; exact hnum)
    have hmapidx : rows.map MRow.idx = rangeIdx n := by
      rw [hrows]
      exact zipRows_map_idx (rangeIdx n) _ _ _
        (by simp [hh, rangeIdx_length]) (by simp [hl, rangeIdx_length])
        (by simp [hd, rangeIdx_length])
    have hlast : (rows.map MRow.idx).getLast? = some ((n : ℤ) - 1) := by
      rw [hmapidx]; exact rangeIdx_getLast? n hn
    have hrowslen : rows.length = n := by
      have := congrArg List.length hmapidx
      simpa [rangeIdx_length] using this
    have hpr' : plotRows pi "H" rows = .ok (evs, some ((n : ℤ) - 1)) := by
      rw [hpr, hlast]
    have htrace : (plot_chakrabarti pi (.array (hs.map .num))
        (.array (ls.map .num)) (.array (ds.map .num)) ax).trace
          = preEvents ax ++ boundaryEvents pi ++ (evs
            ++ ((if 0 < (n : ℤ) - 1 then [Ev.legend] else []) ++ chakTail)) ∧
        (plot_chakrabarti pi (.array (hs.map .num))
        (.array (ls.map .num)) (.array (ds.map .num)) ax).err = none := by
      unfold plot_chakrabarti
      simp only [hb, hpr']
      simp [isNumericType]
    obtain ⟨htr, herr⟩ := htrace
    refine ⟨herr, ?_, ?_⟩
    · rw [htr]
      rw [markerCount, List.filter_append, List.filter_append,
        List.filter_append, List.filter_append]
      rw [filter_isMarker_pre, filter_isMarker_boundary, filter_isMarker_tail]
      have hevs : evs.filter isMarker = evs := List.filter_eq_self.mpr hmark
      have hleg : (if 0 < (n : ℤ) - 1 then [Ev.legend] else []).filter isMarker
          = [] := by split <;> rfl
      rw [hevs, hleg]
      simp [hlen, hrowslen]
    · rw [htr]
      have hnotevs : Ev.legend ∉ evs := fun hmem => by
        have := hmark _ hmem
        simp [isMarker] at this
      constructor
      · intro hmem
        rcases List.mem_append.mp hmem with h | h
        · rcases List.mem_append.mp h with h | h
          · exact absurd h (legend_notMem_pre ax)
          · exact absurd h (legend_notMem_boundary pi)
        rcases List.mem_append.mp h with h | h
        · exact absurd h hnotevs
        rcases List.mem_append.mp h with h | h
        · by_cases hc : 0 < (n : ℤ) - 1
          · omega
          · rw [if_neg hc] at h; simp at h
        · exact absurd h legend_notMem_tail
      · intro hlt
        have hc : 0 < (n : ℤ) - 1 := by omega
        refine List.mem_append.mpr (Or.inr (List.mem_append.mpr (Or.inr
          (List.mem_append.mpr (Or.inl ?_)))))
        rw [if_pos hc]
        exact List.mem_singleton.mpr rfl

/-- C6 witness: the amended statement applied at the numpy-array call
`([8,8], [200,200], [5,15])` with two triples. -/
theorem C6_marker_count_and_legend_witness :
    (plot_chakrabarti pi0 (.array ([(8 : ℚ), 8].map .num))
        (.array ([(200 : ℚ), 200].map .num))
        (.array ([(5 : ℚ), 15].map .num)) none).err = none ∧
    markerCount (plot_chakrabarti pi0 (.array ([(8 : ℚ), 8].map .num))
        (.array ([(200 : ℚ), 200].map .num))
        (.array ([(5 : ℚ), 15].map .num)) none).trace = 2 ∧
    (Ev.legend ∈ (plot_chakrabarti pi0 (.array ([(8 : ℚ), 8].map .num))
        (.array ([(200 : ℚ), 200].map .num))
        (.array ([(5 : ℚ), 15].map .num)) none).trace ↔ 1 < 2) :=
  (C6_marker_count_and_legend pi0 [8, 8] [200, 200] [5, 15] none 2
    rfl rfl rfl (by omega)).2.2

/-- Inversion of a successful `plot_chakrabarti` call: the `mvals`
assembly and the marker loop succeeded, the loop ran at least once, and
the trace is the figure creation, the boundary drawing, the markers, the
conditional legend and the closing events. -/
theorem chak_success (pi : ℚ) (H lambda_w D : CInput) (ax : Option ℕ)
    (herr : (plot_chakrabarti pi H lambda_w D ax).err = none) :
    ∃ m evs lastIdx, buildMVals H lambda_w D = .ok m ∧
      plotRows pi m.hName m.rows = .ok (evs, some lastIdx) ∧
      plot_chakrabarti pi H lambda_w D ax
        = ⟨preEvents ax ++ boundaryEvents pi ++ (evs
            ++ ((if 0 < lastIdx then [Ev.legend] else []) ++ chakTail)),
           none, none, H, lambda_w, D⟩ := by
  unfold plot_chakrabarti at herr
  split at herr
  · simp at herr
  split at herr
  · simp at herr
  split at herr
  · simp at herr
  rename_i hc1 hc2 hc3
  split at herr
  · simp at herr
  rename_i m heq
  split at herr
  · simp at herr
  · simp at herr
  rename_i evs li heq2
  refine ⟨m, evs, li, heq, heq2, ?_⟩
  unfold plot_chakrabarti
  rw [if_neg hc1, if_neg hc2, if_neg hc3, heq]
  simp [heq2, List.append_assoc]

/-- C8: for every accepted input triple — every row of the assembled
`mvals` frame — a successful `plot_chakrabarti` call plots the marker at
`x = H/D` and `y = pi*D/lambda_w`, and sets the axis limits to
`(0.01, 10)` on x and `(0.01, 50)` on y. -/
theorem C8_marker_coordinates_and_limits (pi : ℚ) (H lambda_w D : CInput)
    (ax : Option ℕ) (m : MVals) (r : MRow) (h lw d : ℚ)
    (herr : (plot_chakrabarti pi H lambda_w D ax).err = none)
    (hm : buildMVals H lambda_w D = .ok m) (hr : r ∈ m.rows)
    (hh : r.hVal = .num h) (hl : r.lwVal = .num lw) (hd : r.dVal = .num d) :
    (∃ lab, Ev.marker (.num (h / d)) (.num (pi * d / lw)) lab
        ∈ (plot_chakrabarti pi H lambda_w D ax).trace) ∧
    Ev.setXLim (1 / 100) 10 ∈ (plot_chakrabarti pi H lambda_w D ax).trace ∧
    Ev.setYLim (1 / 100) 50 ∈ (plot_chakrabarti pi H lambda_w D ax).trace := by
  obtain ⟨m', evs, li, hb', hp, hout⟩ := chak_success pi H lambda_w D ax herr
  have hm' : m' = m := by
    rw [hm] at hb'
    exact (Except.ok.inj hb').symm
  subst hm'
  have htr : (plot_chakrabarti pi H lambda_w D ax).trace
      = preEvents ax ++ boundaryEvents pi ++ (evs
          ++ ((if 0 < li then [Ev.legend] else []) ++ chakTail)) := by
    rw [hout]
  have htail : ∀ e ∈ chakTail, e ∈ (plot_chakrabarti pi H lambda_w D ax).trace := by
    intro e he
    rw [htr]
    exact List.mem_append.mpr (Or.inr (List.mem_append.mpr (Or.inr
      (List.mem_append.mpr (Or.inr he)))))
  obtain ⟨ev, hev, hmem⟩ := mem_plotRows pi m'.hName m'.rows evs (some li) r hp hr
  have hrstruct : r = ⟨r.idx, .num h, .num lw, .num d⟩ := by
    cases r; simp_all
  rw [hrstruct] at hev
  by_cases hn : m'.hName = "H"
  · rw [hn, rowMarker_num] at hev
    have hevv := Except.ok.inj hev
    refine ⟨⟨"$H = " ++ toString h ++ ",\\,$lambda_\x7bw\x7d$ = "
        ++ toString lw ++ ",\\,D = " ++ toString d ++ "$", ?_⟩,
      htail _ (by simp [chakTail]), htail _ (by simp [chakTail])⟩
    rw [htr]
    refine List.mem_append.mpr (Or.inr (List.mem_append.mpr (Or.inl ?_)))
    rw [hevv]
    exact hmem
  · exact absurd hev (by simp [rowMarker, getHColumn, hn, exceptError_bind])

/-- C8 witness: the scalar call `(8, 200, 5)` plots its marker at
`(8/5, pi*5/200)` and sets both axis limits. -/
theorem C8_marker_coordinates_and_limits_witness :
    (∃ lab, Ev.marker (.num ((8 : ℚ) / 5)) (.num (pi0 * 5 / 200)) lab
        ∈ (plot_chakrabarti pi0 (.scalar 8) (.scalar 200) (.scalar 5)
            none).trace) ∧
    Ev.setXLim (1 / 100) 10
      ∈ (plot_chakrabarti pi0 (.scalar 8) (.scalar 200) (.scalar 5)
          none).trace ∧
    Ev.setYLim (1 / 100) 50
      ∈ (plot_chakrabarti pi0 (.scalar 8) (.scalar 200) (.scalar 5)
          none).trace :=
  C8_marker_coordinates_and_limits pi0 (.scalar 8) (.scalar 200) (.scalar 5)
    none ⟨"H", [⟨0, .num 8, .num 200, .num 5⟩]⟩
    ⟨0, .num 8, .num 200, .num 5⟩ 8 200 5 rfl rfl
    (List.mem_singleton.mpr rfl) rfl rfl rfl

/-! ## Helper lemmas for the matrix annotation loop -/

/-- Annotation triples rendered as text events. -/
def toTextEvs (l : List (ℚ × ℚ × String)) : List Ev :=
  l.map (fun p => Ev.text p.1 p.2.1 p.2.2)

/-- `annTexts` recovers the triples of rendered text events. -/
theorem annTexts_toTextEvs (l : List (ℚ × ℚ × String)) :
    annTexts (toTextEvs l) = l := by
  induction l with
  | nil => rfl
  | cons p rest ih =>
    show annTexts (Ev.text p.1 p.2.1 p.2.2 :: toTextEvs rest) = p :: rest
    rw [show annTexts (Ev.text p.1 p.2.1 p.2.2 :: toTextEvs rest)
        = (p.1, p.2.1, p.2.2) :: annTexts (toTextEvs rest) from rfl, ih]

/-- `annTexts` distributes over append. -/
theorem annTexts_append (a b : List Ev) :
    annTexts (a ++ b) = annTexts a ++ annTexts b := by
  induction a with
  | nil => rfl
  | cons e rest ih => cases e <;> simp [annTexts, ih]

/-- In a matrix whose cells all convert to floats, no grid position holds
a string. -/
theorem not_str_of_cellsNumeric (cells : List (List PyVal))
    (h : cellsNumeric cells = true) (j i : ℕ) (s : String) :
    (cells.getD j []).getD i PyVal.nan ≠ .str s := by
  intro hstr
  by_cases hj : j < cells.length
  · have hrow : cells.getD j [] ∈ cells := by
      rw [List.getD_eq_getElem _ _ hj]
      exact List.getElem_mem hj
    have hall := (List.all_eq_true.mp h) _ hrow
    by_cases hi : i < (cells.getD j []).length
    · have hv : (cells.getD j []).getD i PyVal.nan ∈ cells.getD j [] := by
        rw [List.getD_eq_getElem _ _ hi]
        exact List.getElem_mem hi
      have := (List.all_eq_true.mp hall) _ hv
      rw [hstr] at this
      simp at this
    · have hdef : (cells.getD j []).getD i PyVal.nan = PyVal.nan :=
        List.getD_eq_default _ _ (by omega)
      rw [hdef] at hstr
      exact absurd hstr (by simp)
  · have hdef : cells.getD j [] = [] := List.getD_eq_default _ _ (by omega)
    rw [hdef] at hstr
    have hdef2 : ([] : List PyVal).getD i PyVal.nan = PyVal.nan :=
      List.getD_eq_default _ _ (by simp)
    rw [hdef2] at hstr
    exact absurd hstr (by simp)

/-- `findPos` finds the first occurrence: an element not present earlier
is located at the length of the prefix. -/
theorem findPos_append (pre suf : List ℚ) (a : ℚ) (ha : a ∉ pre) :
    findPos a (pre ++ a :: suf) = some pre.length := by
  induction pre with
  | nil => simp [findPos]
  | cons b rest ih =>
    have hab : ¬ a = b := fun hc => ha (by rw [hc]; exact List.mem_cons_self b rest)
    rw [List.cons_append, findPos, if_neg hab,
      ih (fun hc => ha (List.mem_cons_of_mem b hc))]
    rfl

/-- One annotation step at a located grid position: the value is looked
up, skipped when NaN, and rendered with two decimals otherwise. -/
theorem annotateCell_eq (t : MatrixDF) (i j : ℕ) (cl rl : ℚ)
    (hr : findPos rl t.rowIdx = some j) (hc : findPos cl t.colIdx = some i)
    (hnostr : ∀ s, cellAt t j i ≠ .str s) :
    annotateCell t i j cl rl
      = .ok (toTextEvs (match cellAt t j i with
          | .num q => [((i : ℚ), (j : ℚ), format2f q)]
          | _ => [])) := by
  unfold annotateCell locCell
  rw [hr, hc]
  cases hcell : cellAt t j i with
  | num q => simp [npIsnan, exceptOk_bind, toTextEvs, hcell]
  | nan => simp [npIsnan, exceptOk_bind, toTextEvs, hcell]
  | str s => exact absurd hcell (hnostr s)

/-- The inner annotation loop agrees with the spec-side description on
every suffix of the row labels. -/
theorem annotateRows_eq (t : MatrixDF) (i : ℕ) (cl : ℚ)
    (hc : findPos cl t.colIdx = some i) (hrow : t.rowIdx.Nodup)
    (hnum : cellsNumeric t.cells = true) :
    ∀ (sufR preR : List ℚ), t.rowIdx = preR ++ sufR →
      annotateRows t i cl preR.length sufR
        = .ok (toTextEvs (specAnnRows t i preR.length sufR)) := by
  intro sufR
  induction sufR with
  | nil => intro preR _; rfl
  | cons rl rest ih =>
    intro preR hdec
    have hnotmem : rl ∉ preR := by
      rw [hdec] at hrow
      have hdisj := (List.nodup_append.mp hrow).2.2
      intro hmem
      exact hdisj hmem (List.mem_cons_self rl rest)
    have hr : findPos rl t.rowIdx = some preR.length := by
      rw [hdec]; exact findPos_append preR rest rl hnotmem
    have hcell := annotateCell_eq t i preR.length cl rl hr hc
      (fun s => not_str_of_cellsNumeric t.cells hnum preR.length i s)
    have hrec := ih (preR ++ [rl]) (by rw [hdec]; simp)
    rw [List.length_append, List.length_singleton] at hrec
    rw [annotateRows, hcell, hrec]
    rw [specAnnRows]
    cases hc2 : cellAt t preR.length i <;>
      simp [toTextEvs]

/-- The outer annotation loop agrees with the spec-side description on
every suffix of the column labels. -/
theorem annotateCols_eq (t : MatrixDF) (hrow : t.rowIdx.Nodup)
    (hcol : t.colIdx.Nodup) (hnum : cellsNumeric t.cells = true) :
    ∀ (sufC preC : List ℚ), t.colIdx = preC ++ sufC →
      annotateCols t preC.length sufC
        = .ok (toTextEvs (specAnnCols t preC.length sufC)) := by
  intro sufC
  induction sufC with
  | nil => intro preC _; rfl
  | cons cl rest ih =>
    intro preC hdec
    have hnotmem : cl ∉ preC := by
      rw [hdec] at hcol
      have hdisj := (List.nodup_append.mp hcol).2.2
      intro hmem
      exact hdisj hmem (List.mem_cons_self cl rest)
    have hcpos : findPos cl t.colIdx = some preC.length := by
      rw [hdec]; exact findPos_append preC rest cl hnotmem
    have hrows := annotateRows_eq t preC.length cl hcpos hrow hnum t.rowIdx []
      rfl
    simp only [List.length_nil] at hrows
    have hrec := ih (preC ++ [cl]) (by rw [hdec]; simp)
    rw [List.length_append, List.length_singleton] at hrec
    rw [annotateCols, hrows, hrec, specAnnCols]
    simp [toTextEvs]

/-- C5: with `show_values=True`, `plot_matrix` annotates exactly the
finite (non-NaN) cells, each with its value rendered to two decimal
places at its grid position — the trace's annotations equal the spec-side
description — and on a 3×3 all-finite matrix it draws exactly 9
annotations, while the same matrix with one NaN cell draws exactly 8. -/
theorem C5_matrix_annotations (t : MatrixDF) (xl yl : String)
    (zl : Option String) (ax : Option ℕ)
    (hrow : t.rowIdx.Nodup) (hcol : t.colIdx.Nodup)
    (hnum : cellsNumeric t.cells = true) :
    ((plot_matrix (.df t) xl yl zl true ax).err = none ∧
      annTexts (plot_matrix (.df t) xl yl zl true ax).trace
        = specAnnotations t) ∧
    (annTexts (plot_matrix (.df ⟨[1, 2, 3], [4, 5, 6],
        [[.num 1, .num 2, .num 3], [.num 4, .num 5, .num 6],
         [.num 7, .num 8, .num 9]]⟩) "Te" "Hm0" none true none).trace).length
      = 9 ∧
    (annTexts (plot_matrix (.df ⟨[1, 2, 3], [4, 5, 6],
        [[.num 1, .num 2, .num 3], [.num 4, .nan, .num 6],
         [.num 7, .num 8, .num 9]]⟩) "Te" "Hm0" none true none).trace).length
      = 8 := by
  have him : imshowStep t = .ok (Ev.imshow t.cells) := by
    unfold imshowStep; rw [if_pos hnum]
  have hann := annotateCols_eq t hrow hcol hnum t.colIdx [] rfl
  simp only [List.length_nil] at hann
  refine ⟨⟨?_, ?_⟩, rfl, rfl⟩
  · cases ax <;> cases zl <;>
      (unfold plot_matrix; simp only [him, hann]; simp)
  · cases ax <;> cases zl <;>
      (unfold plot_matrix
       simp only [him, hann]
       simp [annTexts_append, annTexts, annTexts_toTextEvs, specAnnotations,
         preEvents])

/-- C5 witness: the annotation description applied to the 3×3 matrix
with one NaN cell. -/
theorem C5_matrix_annotations_witness :
    (plot_matrix (.df ⟨[1, 2, 3], [4, 5, 6],
        [[.num 1, .num 2, .num 3], [.num 4, .nan, .num 6],
         [.num 7, .num 8, .num 9]]⟩) "Te" "Hm0" none true none).err = none ∧
    annTexts (plot_matrix (.df ⟨[1, 2, 3], [4, 5, 6],
        [[.num 1, .num 2, .num 3], [.num 4, .nan, .num 6],
         [.num 7, .num 8, .num 9]]⟩) "Te" "Hm0" none true none).trace
      = specAnnotations ⟨[1, 2, 3], [4, 5, 6],
        [[.num 1, .num 2, .num 3], [.num 4, .nan, .num 6],
         [.num 7, .num 8, .num 9]]⟩ :=
  (C5_matrix_annotations ⟨[1, 2, 3], [4, 5, 6],
      [[.num 1, .num 2, .num 3], [.num 4, .nan, .num 6],
       [.num 7, .num 8, .num 9]]⟩ "Te" "Hm0" none none
    (by norm_num) (by norm_num) rfl).1

end WaveGraphics
